import Mathlib

/-!
# lectorhid.c : the pcProx card-read protocol engine

A shallow embedding of `src/lectorhid.c` (functions `PCPROX_Write`, `PCPROX_Read`,
`interact`, `PCPROX_READTAGS` and the polling `do ... while` loop of `main`) together
with theorems about the frame check, the two-command exchange, the UID/FAC decode and
the loop exit tests.

Conventions of the embedding

* `unsigned char` is `Fin 256`; every sum of bytes is taken on the values as natural
  numbers, as C integer promotion does.
* a global `unsigned char x[N]` is a total map from index to byte; the program only
  touches indices below `N`.
* `union QuickConvert` is its four bytes `cBytes`; `iData` is read and written
  little-endian (the program targets Windows/x86: it includes `conio.h`), as an
  `unsigned int` of 32 bits.
* `int` and `time_t` values are `Int`; the values involved stay far from the ends of
  the machine ranges.
* calls that leave the program (`hid_send_feature_report`, `hid_get_feature_report`,
  `usleep`, `printf`, `time`, `kbhit`) are recorded, in order, in a log of events; the
  HID library is a parameter: an arbitrary state machine.
-/

namespace Lectorhid

/-- The C type `unsigned char`. -/
abbrev Byte := Fin 256

/-- A global array of `unsigned char`, as a map from index to element. -/
abbrev CArray := Nat → Byte

/-- The assignment `a[i] = v`. -/
def CArray.write (a : CArray) (i : Nat) (v : Byte) : CArray :=
  fun j => if j = i then v else a j

/-- The elements `a[0] .. a[n-1]`, in order. -/
def CArray.firstN (a : CArray) (n : Nat) : List Byte :=
  (List.range n).map a

/-- An array holding the listed bytes from index 0 on, and 0 after them. -/
def CArray.ofList (l : List Byte) : CArray :=
  fun i => l.getD i 0

/-- The loop `for (int i=0;i<n;i++) a[i]=0;`. -/
def zeroLoop (a : CArray) : Nat → CArray
  | 0 => a
  | n + 1 => (zeroLoop a n).write n 0

/-- The loop `for (int kj=0;kj<n;kj++) dst[kj]=src[kj];`. -/
def copyLoop (dst src : CArray) : Nat → CArray
  | 0 => dst
  | n + 1 => (copyLoop dst src n).write n (src n)

/-- Member `iData` of `union QuickConvert`, read from the four bytes `cBytes[0..3]`
(least significant byte first). -/
def iData (cBytes : CArray) : Nat :=
  (cBytes 0).val + 256 * (cBytes 1).val + 65536 * (cBytes 2).val + 16777216 * (cBytes 3).val

/-- The assignment `u.iData = v` of an `unsigned int`: the four bytes of `v mod 2^32`,
least significant first. -/
def setIData (v : Nat) : CArray :=
  fun i => if i < 4 then ⟨(v % 4294967296) / 256 ^ i % 256, Nat.mod_lt _ (by decide)⟩ else 0

/-- The C operator `&&` on integer operands: 1 when both are nonzero, else 0. -/
def logicalAnd (a b : Nat) : Nat :=
  if a ≠ 0 ∧ b ≠ 0 then 1 else 0

/-- Conversion of a value to `unsigned char` (reduction modulo 256). -/
def toByte (n : Nat) : Byte :=
  ⟨n % 256, Nat.mod_lt _ (by decide)⟩

/-- Conversion of an `unsigned int` to `int` (two's complement, 32 bits). -/
def toInt (u : Nat) : Int :=
  if u % 4294967296 < 2147483648 then ((u % 4294967296 : Nat) : Int)
  else ((u % 4294967296 : Nat) : Int) - 4294967296

/-- One call that leaves the program, as recorded in the log. -/
inductive Event
  /-- The call `hid_send_feature_report(handle,msg,9)` with the nine bytes sent. -/
  | send (report : List Byte)
  /-- The call `hid_get_feature_report(handle,PCPROX_READBUFFER,9)` and its status. -/
  | get (hid_status : Int)
  /-- The call `usleep(usec)`. -/
  | usleep (usec : Nat)
  /-- The line `Error en lectura. report is empty.` -/
  | printError
  /-- The line `TAG DATA:` followed by `card_data[0..7]` in hexadecimal. -/
  | printTagData (bytes : List Byte)
  /-- The line `TAG INFO:` followed by `card_info[0..7]` in hexadecimal. -/
  | printTagInfo (bytes : List Byte)
  /-- The text `Card has %i data bits.` -/
  | printBits (read_bits : Nat)
  /-- The text ` FAC=%i UID=%i`. -/
  | printFacUid (fac uid : Nat)
  /-- The call `time(NULL)` and its value. -/
  | time (t : Int)
  /-- The call `kbhit()` and its value. -/
  | kbhit (pressed : Bool)
  deriving DecidableEq, Repr

/-- The reports sent, oldest first. -/
def sentReports : List Event → List (List Byte)
  | [] => []
  | Event.send r :: es => r :: sentReports es
  | _ :: es => sentReports es

/-- The transport calls (sends and reads) of a log, in order. -/
def transportCalls : List Event → List Event
  | [] => []
  | Event.send r :: es => Event.send r :: transportCalls es
  | Event.get n :: es => Event.get n :: transportCalls es
  | _ :: es => transportCalls es

/-- The lines printed for a decoded card (data, info, bit length, FAC and UID). -/
def cardPrints : List Event → List Event
  | [] => []
  | Event.printTagData b :: es => Event.printTagData b :: cardPrints es
  | Event.printTagInfo b :: es => Event.printTagInfo b :: cardPrints es
  | Event.printBits n :: es => Event.printBits n :: cardPrints es
  | Event.printFacUid f u :: es => Event.printFacUid f u :: cardPrints es
  | _ :: es => cardPrints es

/-- The HID library behind `handle`, as the program sees it: a state machine of
arbitrary state `σ`. Sending takes the bytes of the report and gives a status; reading
takes the buffer passed in and gives a status and the buffer as the call leaves it. -/
structure Hid (σ : Type) where
  hid_send_feature_report : σ → List Byte → σ × Int
  hid_get_feature_report : σ → CArray → σ × Int × CArray

/-- The device state, the global variables of the program and the log. -/
structure World (σ : Type) where
  dev : σ
  PCPROX_READBUFFER : CArray
  card_data : CArray
  card_info : CArray
  buf : CArray
  uFAC : CArray
  uUID : CArray
  log : List Event

/-- What a function returning `unsigned char *` returns here: `NULL` or the address of
`PCPROX_READBUFFER`. -/
inductive Ptr
  | NULL
  | READBUFFER
  deriving DecidableEq, Repr

/-- The test `(hid_status==-1) || hid_status<8` of `PCPROX_Read`. -/
def readFailed (hid_status : Int) : Bool :=
  decide (hid_status = -1) || decide (hid_status < 8)

/-- Function `PCPROX_Write`: sends the nine bytes at `msg`, sleeps 1 ms, returns the
status of the send. -/
def PCPROX_Write {σ : Type} (h : Hid σ) (msg : CArray) (w : World σ) : World σ × Int :=
  let report := msg.firstN 9
  let r := h.hid_send_feature_report w.dev report
  ({ w with dev := r.1, log := w.log ++ [Event.send report, Event.usleep 1000] }, r.2)

/-- Function `PCPROX_Read`: clears byte 0 of the read buffer, reads a feature report of
nine bytes into it and returns `NULL` when the status fails the test. -/
def PCPROX_Read {σ : Type} (h : Hid σ) (w : World σ) : World σ × Ptr :=
  let rb := w.PCPROX_READBUFFER.write 0 0
  let r := h.hid_get_feature_report w.dev rb
  let hid_status := r.2.1
  let w1 := { w with dev := r.1, PCPROX_READBUFFER := r.2.2,
                     log := w.log ++ [Event.get hid_status] }
  if readFailed hid_status then (w1, Ptr.NULL) else (w1, Ptr.READBUFFER)

/-- Function `interact`: a write followed by a read; the status of the write is
dropped. -/
def interact {σ : Type} (h : Hid σ) (msg : CArray) (w : World σ) : World σ × Ptr :=
  PCPROX_Read h (PCPROX_Write h msg w).1

/-- The body of `if ((card_data[1] + card_data[2] + card_data[3])>0) { ... }` in
`PCPROX_READTAGS`: the prints and the decode of `uUID` and `uFAC`. -/
def decodeBlock {σ : Type} (UID_20_BITS : Bool) (w : World σ) : World σ :=
  let read_bits := (w.card_info 1).val
  let w1 := { w with log := w.log ++ [Event.printTagData (w.card_data.firstN 8),
                                       Event.printTagInfo (w.card_info.firstN 8),
                                       Event.printBits read_bits] }
  let uUID := ((w1.uUID.write 0 (w1.card_data 1)).write 1 (w1.card_data 2)).write 2 (w1.card_data 3)
  let uFAC := (w1.uFAC.write 0 (w1.card_data 3)).write 1 (w1.card_data 4)
  let w2 :=
    if UID_20_BITS && decide (read_bits = 32) then
      { w1 with uUID := uUID.write 2 (toByte (logicalAnd 0x0F (uUID 2).val)),
                uFAC := setIData (iData uFAC >>> 4) }
    else
      { w1 with uUID := uUID.write 2 0, uFAC := uFAC }
  { w2 with log := w2.log ++ [Event.printFacUid (iData w2.uFAC) (iData w2.uUID)] }

/-- Function `PCPROX_READTAGS`; `UID_20_BITS` is the global flag of that name. Returns
the world after the call and the value returned (`uUID.iData`, or 0). -/
def PCPROX_READTAGS {σ : Type} (h : Hid σ) (UID_20_BITS : Bool) (w : World σ) :
    World σ × Nat :=
  let w1 := { w with uFAC := setIData 0, uUID := setIData 0 }
  let w2 := { w1 with buf := ((zeroLoop w1.buf 65).write 0 0x0).write 1 0x8F }
  let r1 := interact h w2.buf w2
  match r1.2 with
  | Ptr.NULL => ({ r1.1 with log := r1.1.log ++ [Event.printError] }, 0)
  | Ptr.READBUFFER =>
    let w3 := { r1.1 with card_data := copyLoop r1.1.card_data r1.1.PCPROX_READBUFFER 8 }
    let w4 := { w3 with buf := (w3.buf.write 0 0x0).write 1 0x8E }
    let r2 := interact h w4.buf w4
    match r2.2 with
    | Ptr.NULL => ({ r2.1 with log := r2.1.log ++ [Event.printError] }, 0)
    | Ptr.READBUFFER =>
      let w5 := { r2.1 with card_info := copyLoop r2.1.card_info r2.1.PCPROX_READBUFFER 8 }
      let w6 :=
        if (w5.card_data 1).val + (w5.card_data 2).val + (w5.card_data 3).val > 0 then
          decodeBlock UID_20_BITS w5
        else w5
      (w6, iData w6.uUID)

/-- How the polling loop of `main` is left. -/
inductive Exit
  /-- The first `break`: `readUID && ONE_PASS_READ`. -/
  | goodRead
  /-- The second `break`: one-pass read and the wait is over. -/
  | timedOut
  /-- The loop condition `!kbhit()` is false. -/
  | keyPressed
  deriving DecidableEq, Repr

/-- What the clock and the keyboard answer during one round of the loop: the value of
`time(NULL)` after the read and the value of `kbhit()` in the loop condition. -/
structure Tick where
  run_time : Int
  kbhit : Bool
  deriving DecidableEq, Repr

/-- One round of the `do { ... } while (!kbhit());` loop of `main`: the body and the
loop condition. The result is `none` when the loop goes round again. -/
def pollIteration {σ : Type} (h : Hid σ) (ONE_PASS_READ UID_20_BITS : Bool)
    (timeout_wait_seconds time_read_start : Int) (t : Tick) (w : World σ) :
    World σ × Option Exit :=
  let r := PCPROX_READTAGS h UID_20_BITS w
  let readUID := toInt r.2
  if decide (readUID ≠ 0) && ONE_PASS_READ then (r.1, some Exit.goodRead)
  else
    let w1 := { r.1 with log := r.1.log ++ [Event.time t.run_time] }
    if ONE_PASS_READ && decide (t.run_time - time_read_start > timeout_wait_seconds) then
      (w1, some Exit.timedOut)
    else
      let w2 := { w1 with log := w1.log ++ [Event.usleep 500000, Event.kbhit t.kbhit] }
      if t.kbhit then (w2, some Exit.keyPressed) else (w2, none)

/-- The polling loop of `main`, run for as many rounds as there are answers of the
clock and the keyboard; `none` when the loop is still running after them. -/
def pollLoop {σ : Type} (h : Hid σ) (ONE_PASS_READ UID_20_BITS : Bool)
    (timeout_wait_seconds time_read_start : Int) : List Tick → World σ →
    World σ × Option Exit
  | [], w => (w, none)
  | t :: ts, w =>
    let r := pollIteration h ONE_PASS_READ UID_20_BITS timeout_wait_seconds time_read_start t w
    match r.2 with
    | some e => (r.1, some e)
    | none => pollLoop h ONE_PASS_READ UID_20_BITS timeout_wait_seconds time_read_start ts r.1

/-- One answer of the device to a read: the status returned by
`hid_get_feature_report` and `PCPROX_READBUFFER` as the call leaves it (index 0 is the
report number). -/
structure Reply where
  hid_status : Int
  buffer : CArray

/-- A device that answers the successive reads with the listed replies, whatever is
sent to it; every send reports nine bytes written. After the last reply reads fail
with status -1 and leave the buffer alone. -/
def scripted : Hid (List Reply) where
  hid_send_feature_report := fun s _ => (s, 9)
  hid_get_feature_report := fun s rb =>
    match s with
    | [] => ([], -1, rb)
    | r :: rest => (rest, r.hid_status, r.buffer)

/-- The nine-byte feature report carrying `opcode`: byte 0 is 0, byte 1 the opcode,
bytes 2..8 are 0. -/
def commandReport (opcode : Byte) : List Byte :=
  [0, opcode, 0, 0, 0, 0, 0, 0, 0]

/-- What a caller can observe of one `PCPROX_READTAGS` call: the value returned, the
two globals `uUID.iData` and `uFAC.iData`, and the card lines printed. -/
structure Outcome where
  returned : Nat
  uid : Nat
  fac : Nat
  printed : List Event
  deriving DecidableEq, Repr

/-- The outcome of a call that started with an empty log. -/
def outcome {σ : Type} (r : World σ × Nat) : Outcome :=
  { returned := r.2, uid := iData r.1.uUID, fac := iData r.1.uFAC,
    printed := cardPrints r.1.log }

/-- A world with the given device state and globals all zero, log empty. -/
def World.fresh {σ : Type} (dev : σ) : World σ :=
  { dev := dev, PCPROX_READBUFFER := fun _ => 0, card_data := fun _ => 0,
    card_info := fun _ => 0, buf := fun _ => 0, uFAC := fun _ => 0, uUID := fun _ => 0,
    log := [] }

/-- Scenario data: bytes 1..4 of the data reply are 0x10, 0x20, 0x30, 0x40. -/
def scenarioData : Reply :=
  { hid_status := 9, buffer := CArray.ofList [0, 0x10, 0x20, 0x30, 0x40, 0, 0, 0, 0] }

/-- Scenario info: byte 1 of the info reply is the bit length. -/
def scenarioInfo (bits : Byte) : Reply :=
  { hid_status := 9, buffer := CArray.ofList [0, bits, 0, 0, 0, 0, 0, 0, 0] }

/-- A read that delivered eight bytes in all: the report number and seven payload
bytes; byte 8 of the buffer was not written. -/
def eightByteReply : Reply :=
  { hid_status := 8, buffer := CArray.ofList [0, 1, 2, 3, 4, 5, 6, 7] }

/-- One call of `PCPROX_READTAGS` against a device that answers the data request with
`data` and the info request with `info`, from the globals of `w`. -/
def readOnce (UID_20_BITS : Bool) (w : World (List Reply)) (data info : Reply) : Outcome :=
  outcome (PCPROX_READTAGS scripted UID_20_BITS { w with dev := [data, info], log := [] })

/-- The outcome of a call that reports no card. -/
def Outcome.nothing : Outcome :=
  { returned := 0, uid := 0, fac := 0, printed := [] }

/-- Data bytes 1..3 = 0x80,0x80,0x00: their sum is 256, which is 0 modulo 256. -/
def wrapData : Reply :=
  { hid_status := 9, buffer := CArray.ofList [0, 0x80, 0x80, 0x00, 0, 0, 0, 0, 0] }

/-- Data bytes 1..3 = 0,0,0 (Scenario C); the other bytes are not zero. -/
def zeroData : Reply :=
  { hid_status := 9, buffer := CArray.ofList [0, 0, 0, 0, 0x40, 0x55, 0, 0, 0] }

/-- A read that failed: status 7, the buffer holding whatever. -/
def shortReply (buffer : CArray) : Reply :=
  { hid_status := 7, buffer := buffer }

/-- Every reply of the list has bytes 1..3 equal to 0: whichever of them answers a data
request, no card shows. -/
def neverShowsCard (s : List Reply) : Bool :=
  s.all (fun r => decide ((r.buffer 1).val + (r.buffer 2).val + (r.buffer 3).val = 0))

/-- No key is pressed and the time read is at most `limit` seconds after
`time_read_start`, in every round of the list. -/
def quietWithin (time_read_start limit : Int) (ticks : List Tick) : Bool :=
  ticks.all (fun t => decide (t.run_time - time_read_start ≤ limit) && !t.kbhit)

/-- No key is pressed in any round of the list. -/
def noKeyPressed (ticks : List Tick) : Bool :=
  ticks.all (fun t => !t.kbhit)

/-- Scenario D, the clock: the time read in four successive rounds, 0, 1, 2 and 3
seconds after a start at 100; no key is pressed. -/
def scenarioTicksWithin : List Tick :=
  [⟨100, false⟩, ⟨101, false⟩, ⟨102, false⟩, ⟨103, false⟩]

/-- Scenario D, the device: it answers with no card, or fails, and then stops
answering. -/
def scenarioNoCardDevice : List Reply :=
  [zeroData, scenarioInfo 0, shortReply zeroData.buffer, zeroData, shortReply zeroData.buffer]

/-- A card whose data bytes 1..3 are 0,0,5: bytes 1 and 2 (the sixteen low bits of the
UID) are zero, byte 3 is not. -/
def lowZeroData : Reply :=
  { hid_status := 9, buffer := CArray.ofList [0, 0, 0, 5, 0, 0, 0, 0, 0] }

/-- The globals as a call answered by `data` and `info` leaves them. -/
def worldAfter (UID_20_BITS : Bool) (w : World (List Reply)) (data info : Reply) :
    World (List Reply) :=
  (PCPROX_READTAGS scripted UID_20_BITS { w with dev := [data, info], log := [] }).1

/-! ## Arrays and the union -/

theorem write_same (a : CArray) (i : Nat) (v : Byte) : a.write i v i = v := by
  simp [CArray.write]

theorem write_other (a : CArray) (i j : Nat) (v : Byte) (hne : j ≠ i) :
    a.write i v j = a j := by
  simp [CArray.write, hne]

theorem zeroLoop_lt (a : CArray) (n i : Nat) (hi : i < n) : zeroLoop a n i = 0 := by
  induction n with
  | zero => omega
  | succ n ih =>
    by_cases hin : i = n
    · simp [zeroLoop, CArray.write, hin]
    · have hlt : i < n := by omega
      simp [zeroLoop, CArray.write, hin, ih hlt]

theorem copyLoop_lt (dst src : CArray) (n i : Nat) (hi : i < n) :
    copyLoop dst src n i = src i := by
  induction n with
  | zero => omega
  | succ n ih =>
    by_cases hin : i = n
    · simp [copyLoop, CArray.write, hin]
    · have hlt : i < n := by omega
      simp [copyLoop, CArray.write, hin, ih hlt]

theorem firstN_copyLoop (dst src : CArray) (n : Nat) :
    (copyLoop dst src n).firstN n = src.firstN n := by
  unfold CArray.firstN
  apply List.map_congr_left
  intro i hi
  exact copyLoop_lt dst src n i (List.mem_range.mp hi)

theorem iData_setIData (v : Nat) (hv : v < 4294967296) : iData (setIData v) = v := by
  simp only [iData, setIData]
  norm_num
  omega

theorem iData_zero : iData (setIData 0) = 0 := iData_setIData 0 (by decide)

theorem iData_uidBytes (a b c e : Byte) :
    iData (((((setIData 0).write 0 a).write 1 b).write 2 c).write 2 e)
      = a.val + 256 * b.val + 65536 * e.val := by
  simp [iData, CArray.write, setIData]

theorem iData_facBytes (a b : Byte) :
    iData (((setIData 0).write 0 a).write 1 b) = a.val + 256 * b.val := by
  simp [iData, CArray.write, setIData]

theorem uidBytes_two (a b c : Byte) :
    ((((setIData 0).write 0 a).write 1 b).write 2 c) 2 = c := by
  simp [CArray.write]

theorem logicalAnd_le (a b : Nat) : logicalAnd a b ≤ 1 := by
  unfold logicalAnd
  split <;> omega

theorem toByte_logicalAnd (a b : Nat) : (toByte (logicalAnd a b)).val = logicalAnd a b := by
  have hle := logicalAnd_le a b
  simp only [toByte]
  omega

theorem firstN_command8F (b : CArray) :
    (((zeroLoop b 65).write 0 0x0).write 1 0x8F).firstN 9 = commandReport 0x8F := by
  simp [CArray.firstN, List.range_succ, CArray.write, commandReport, zeroLoop_lt]

theorem firstN_command8E (b : CArray) :
    (((((zeroLoop b 65).write 0 0x0).write 1 0x8F).write 0 0x0).write 1 0x8E).firstN 9
      = commandReport 0x8E := by
  simp [CArray.firstN, List.range_succ, CArray.write, commandReport, zeroLoop_lt]

/-! ## One call against scripted replies -/

theorem readOnce_dataFailed (UID_20_BITS : Bool) (w : World (List Reply)) (data info : Reply)
    (hd : readFailed data.hid_status = true) :
    readOnce UID_20_BITS w data info = Outcome.nothing := by
  simp [readOnce, outcome, PCPROX_READTAGS, interact, PCPROX_Read, PCPROX_Write, scripted,
    hd, Outcome.nothing, iData_zero, cardPrints]

theorem readOnce_infoFailed (UID_20_BITS : Bool) (w : World (List Reply)) (data info : Reply)
    (hd : readFailed data.hid_status = false) (hi : readFailed info.hid_status = true) :
    readOnce UID_20_BITS w data info = Outcome.nothing := by
  simp [readOnce, outcome, PCPROX_READTAGS, interact, PCPROX_Read, PCPROX_Write, scripted,
    hd, hi, Outcome.nothing, iData_zero, cardPrints]

theorem readOnce_absent (UID_20_BITS : Bool) (w : World (List Reply)) (data info : Reply)
    (hd : readFailed data.hid_status = false) (hi : readFailed info.hid_status = false)
    (hs : (data.buffer 1).val + (data.buffer 2).val + (data.buffer 3).val = 0) :
    readOnce UID_20_BITS w data info = Outcome.nothing := by
  have h1 : (data.buffer 1).val = 0 := by omega
  have h2 : (data.buffer 2).val = 0 := by omega
  have h3 : (data.buffer 3).val = 0 := by omega
  simp [readOnce, outcome, PCPROX_READTAGS, interact, PCPROX_Read, PCPROX_Write, scripted,
    hd, hi, Outcome.nothing, iData_zero, cardPrints, copyLoop_lt, h1, h2, h3]

theorem readOnce_present (UID_20_BITS : Bool) (w : World (List Reply)) (data info : Reply)
    (hd : readFailed data.hid_status = false) (hi : readFailed info.hid_status = false)
    (hs : 0 < (data.buffer 1).val + (data.buffer 2).val + (data.buffer 3).val) :
    readOnce UID_20_BITS w data info =
      { returned := (data.buffer 1).val + 256 * (data.buffer 2).val + 65536 *
          (if UID_20_BITS && decide ((info.buffer 1).val = 32)
            then logicalAnd 0x0F (data.buffer 3).val else 0),
        uid := (data.buffer 1).val + 256 * (data.buffer 2).val + 65536 *
          (if UID_20_BITS && decide ((info.buffer 1).val = 32)
            then logicalAnd 0x0F (data.buffer 3).val else 0),
        fac := if UID_20_BITS && decide ((info.buffer 1).val = 32)
            then ((data.buffer 3).val + 256 * (data.buffer 4).val) >>> 4
            else (data.buffer 3).val + 256 * (data.buffer 4).val,
        printed :=
          [Event.printTagData (data.buffer.firstN 8), Event.printTagInfo (info.buffer.firstN 8),
           Event.printBits (info.buffer 1).val,
           Event.printFacUid
             (if UID_20_BITS && decide ((info.buffer 1).val = 32)
               then ((data.buffer 3).val + 256 * (data.buffer 4).val) >>> 4
               else (data.buffer 3).val + 256 * (data.buffer 4).val)
             ((data.buffer 1).val + 256 * (data.buffer 2).val + 65536 *
               (if UID_20_BITS && decide ((info.buffer 1).val = 32)
                 then logicalAnd 0x0F (data.buffer 3).val else 0))] } := by
  have hraw : ((data.buffer 3).val + 256 * (data.buffer 4).val) >>> 4 < 4294967296 := by
    have h3 := (data.buffer 3).isLt
    have h4 := (data.buffer 4).isLt
    rw [Nat.shiftRight_eq_div_pow]
    omega
  by_cases hb : (UID_20_BITS && decide ((info.buffer 1).val = 32)) = true
  · simp [readOnce, outcome, PCPROX_READTAGS, interact, PCPROX_Read, PCPROX_Write, scripted,
      hd, hi, cardPrints, copyLoop_lt, firstN_copyLoop, hs, decodeBlock, hb,
      iData_uidBytes, iData_facBytes, uidBytes_two, toByte_logicalAnd, iData_setIData, hraw]
  · simp [readOnce, outcome, PCPROX_READTAGS, interact, PCPROX_Read, PCPROX_Write, scripted,
      hd, hi, cardPrints, copyLoop_lt, firstN_copyLoop, hs, decodeBlock, hb,
      iData_uidBytes, iData_facBytes, uidBytes_two, toByte_logicalAnd, iData_setIData, hraw]

/-! ## The decode -/

/-- What the code computes in the forced 20-bit branch: byte 2 of the UID is the value
of `0x0F && data[3]`, that is 1 when `data[3]` is nonzero and 0 when it is zero. -/
theorem forced20_uid_as_coded (w : World (List Reply)) (data info : Reply)
    (hd : readFailed data.hid_status = false) (hi : readFailed info.hid_status = false)
    (hs : 0 < (data.buffer 1).val + (data.buffer 2).val + (data.buffer 3).val)
    (hb : (info.buffer 1).val = 32) :
    (readOnce true w data info).uid =
      (data.buffer 1).val + 256 * (data.buffer 2).val +
        65536 * (if (data.buffer 3).val = 0 then 0 else 1) := by
  rw [readOnce_present true w data info hd hi hs]
  by_cases h3 : (data.buffer 3).val = 0 <;> simp [hb, logicalAnd, h3]

/-- C1 (the code at Scenario B): with `UID_20_BITS` set, data bytes 1..4 =
0x10,0x20,0x30,0x40 and bit length 32, the call returns and stores the UID 0x012010,
while masking byte 3 to its low nibble, as the claim states, gives 0x002010. -/
theorem C1_forced20_uid_scenarioB :
    (readOnce true (World.fresh []) scenarioData (scenarioInfo 32)).uid = 0x012010 ∧
    (readOnce true (World.fresh []) scenarioData (scenarioInfo 32)).returned = 0x012010 ∧
    (scenarioData.buffer 1).val + 256 * (scenarioData.buffer 2).val
      + 65536 * ((scenarioData.buffer 3).val &&& 0x0F) = 0x002010 := by
  decide

/-- C2: when both exchanges pass the frame test and a card is present, and either
`UID_20_BITS` is false or the bit length `info[1]` is not 32, the UID returned and
stored is `data[1] + 256*data[2]` (below 2^16), the FAC is `data[3] + 256*data[4]`,
and the whole outcome is the one obtained with `UID_20_BITS` false. -/
theorem C2_sixteen_bit_branch (UID_20_BITS : Bool) (w : World (List Reply))
    (data info : Reply)
    (hd : readFailed data.hid_status = false) (hi : readFailed info.hid_status = false)
    (hs : 0 < (data.buffer 1).val + (data.buffer 2).val + (data.buffer 3).val)
    (hb : UID_20_BITS = false ∨ (info.buffer 1).val ≠ 32) :
    (readOnce UID_20_BITS w data info).uid = (data.buffer 1).val + 256 * (data.buffer 2).val ∧
    (readOnce UID_20_BITS w data info).returned
      = (data.buffer 1).val + 256 * (data.buffer 2).val ∧
    (readOnce UID_20_BITS w data info).uid < 2 ^ 16 ∧
    (readOnce UID_20_BITS w data info).fac = (data.buffer 3).val + 256 * (data.buffer 4).val ∧
    readOnce UID_20_BITS w data info = readOnce false w data info := by
  have hcond : (UID_20_BITS && decide ((info.buffer 1).val = 32)) = false := by
    rcases hb with hb | hb <;> simp [hb]
  have h1 := (data.buffer 1).isLt
  have h2 := (data.buffer 2).isLt
  rw [readOnce_present UID_20_BITS w data info hd hi hs,
    readOnce_present false w data info hd hi hs]
  simp only [hcond, Bool.false_and]
  refine ⟨by simp, by simp, ?_, by simp, by simp⟩
  simp only [Bool.false_eq_true, if_false]
  omega

/-- Scenario A for C2: data bytes 1..4 = 0x10,0x20,0x30,0x40, bit length 16,
`UID_20_BITS` false: UID 0x002010 and FAC 0x4030. -/
theorem C2_sixteen_bit_branch_witness :
    (readFailed scenarioData.hid_status = false ∧
      readFailed (scenarioInfo 16).hid_status = false ∧
      0 < (scenarioData.buffer 1).val + (scenarioData.buffer 2).val
        + (scenarioData.buffer 3).val) ∧
    (readOnce false (World.fresh []) scenarioData (scenarioInfo 16)).uid = 0x002010 ∧
    (readOnce false (World.fresh []) scenarioData (scenarioInfo 16)).fac = 0x4030 :=
  have h := C2_sixteen_bit_branch false (World.fresh []) scenarioData (scenarioInfo 16)
    (by decide) (by decide) (by decide) (Or.inl rfl)
  ⟨⟨by decide, by decide, by decide⟩, h.1.trans (by decide), h.2.2.2.1.trans (by decide)⟩

/-- C3: when both exchanges pass the frame test, a card is present, `UID_20_BITS` is
set and the bit length `info[1]` is 32, the decoded UID is below 2^20 and the decoded
FAC is `(data[3] + 256*data[4]) >> 4`, hence below 2^12. -/
theorem C3_forced20_bound_and_shift (w : World (List Reply)) (data info : Reply)
    (hd : readFailed data.hid_status = false) (hi : readFailed info.hid_status = false)
    (hs : 0 < (data.buffer 1).val + (data.buffer 2).val + (data.buffer 3).val)
    (hb : (info.buffer 1).val = 32) :
    (readOnce true w data info).uid < 2 ^ 20 ∧
    (readOnce true w data info).returned < 2 ^ 20 ∧
    (readOnce true w data info).fac
      = ((data.buffer 3).val + 256 * (data.buffer 4).val) >>> 4 ∧
    (readOnce true w data info).fac < 2 ^ 12 := by
  have h1 := (data.buffer 1).isLt
  have h2 := (data.buffer 2).isLt
  have h3 := (data.buffer 3).isLt
  have h4 := (data.buffer 4).isLt
  have hl := logicalAnd_le 0x0F (data.buffer 3).val
  rw [readOnce_present true w data info hd hi hs]
  simp only [hb, decide_True, Bool.and_self, if_true, Nat.shiftRight_eq_div_pow]
  refine ⟨?_, ?_, trivial, ?_⟩ <;> omega

/-- Scenario B for C3: data bytes 1..4 = 0x10,0x20,0x30,0x40, bit length 32,
`UID_20_BITS` set: the FAC is 0x4030 >> 4 = 0x0403. -/
theorem C3_forced20_bound_and_shift_witness :
    (readFailed scenarioData.hid_status = false ∧
      readFailed (scenarioInfo 32).hid_status = false ∧
      0 < (scenarioData.buffer 1).val + (scenarioData.buffer 2).val
        + (scenarioData.buffer 3).val ∧
      ((scenarioInfo 32).buffer 1).val = 32) ∧
    (readOnce true (World.fresh []) scenarioData (scenarioInfo 32)).uid < 2 ^ 20 ∧
    (readOnce true (World.fresh []) scenarioData (scenarioInfo 32)).fac = 0x0403 :=
  have h := C3_forced20_bound_and_shift (World.fresh []) scenarioData (scenarioInfo 32)
    (by decide) (by decide) (by decide) (by decide)
  ⟨⟨by decide, by decide, by decide, by decide⟩, h.1, h.2.2.1.trans (by decide)⟩

/-! ## The presence test and the failed exchanges -/

/-- C4: when both exchanges pass the frame test, the call prints and decodes a card
exactly when `data[1] + data[2] + data[3] > 0`, the sum being taken on natural numbers,
that is exactly when one of the three bytes is nonzero; a present card is printed with
its data, its info, its bit length and the decoded FAC and UID; when the sum is 0
nothing is printed, `uUID` and `uFAC` stay 0 and the call returns 0. -/
theorem C4_presence_test (UID_20_BITS : Bool) (w : World (List Reply)) (data info : Reply)
    (hd : readFailed data.hid_status = false) (hi : readFailed info.hid_status = false) :
    ((readOnce UID_20_BITS w data info).printed ≠ [] ↔
      0 < (data.buffer 1).val + (data.buffer 2).val + (data.buffer 3).val) ∧
    (0 < (data.buffer 1).val + (data.buffer 2).val + (data.buffer 3).val ↔
      (data.buffer 1 ≠ 0 ∨ data.buffer 2 ≠ 0 ∨ data.buffer 3 ≠ 0)) ∧
    (0 < (data.buffer 1).val + (data.buffer 2).val + (data.buffer 3).val →
      (readOnce UID_20_BITS w data info).printed =
        [Event.printTagData (data.buffer.firstN 8), Event.printTagInfo (info.buffer.firstN 8),
         Event.printBits (info.buffer 1).val,
         Event.printFacUid (readOnce UID_20_BITS w data info).fac
           (readOnce UID_20_BITS w data info).uid]) ∧
    ((data.buffer 1).val + (data.buffer 2).val + (data.buffer 3).val = 0 →
      (readOnce UID_20_BITS w data info).printed = [] ∧
      (readOnce UID_20_BITS w data info).uid = 0 ∧
      (readOnce UID_20_BITS w data info).fac = 0 ∧
      (readOnce UID_20_BITS w data info).returned = 0) := by
  refine ⟨?_, ?_, ?_, ?_⟩
  · by_cases hs : 0 < (data.buffer 1).val + (data.buffer 2).val + (data.buffer 3).val
    · rw [readOnce_present UID_20_BITS w data info hd hi hs]
      simp [hs]
    · rw [readOnce_absent UID_20_BITS w data info hd hi (by omega)]
      simp [Outcome.nothing, hs]
  · simp only [ne_eq, Fin.ext_iff, Fin.val_zero]
    omega
  · intro hs
    rw [readOnce_present UID_20_BITS w data info hd hi hs]
  · intro hs
    rw [readOnce_absent UID_20_BITS w data info hd hi hs]
    simp [Outcome.nothing]

/-- Witnesses for C4: data bytes 1..3 = 0x80,0x80,0x00 are a present card, and data
bytes 1..3 = 0,0,0 (Scenario C) give no card, nothing decoded and 0 returned. -/
theorem C4_presence_test_witness :
    (readFailed wrapData.hid_status = false ∧ readFailed zeroData.hid_status = false ∧
      readFailed (scenarioInfo 26).hid_status = false) ∧
    (readOnce false (World.fresh []) wrapData (scenarioInfo 26)).printed ≠ [] ∧
    ((readOnce false (World.fresh []) zeroData (scenarioInfo 26)).printed = [] ∧
      (readOnce false (World.fresh []) zeroData (scenarioInfo 26)).uid = 0 ∧
      (readOnce false (World.fresh []) zeroData (scenarioInfo 26)).fac = 0 ∧
      (readOnce false (World.fresh []) zeroData (scenarioInfo 26)).returned = 0) :=
  ⟨⟨by decide, by decide, by decide⟩,
   (C4_presence_test false (World.fresh []) wrapData (scenarioInfo 26)
      (by decide) (by decide)).1.mpr (by decide),
   (C4_presence_test false (World.fresh []) zeroData (scenarioInfo 26)
      (by decide) (by decide)).2.2.2 (by decide)⟩

/-- C6: if the data exchange fails the frame test, or it passes and the info exchange
fails, the call returns 0, leaves `uUID.iData` and `uFAC.iData` at 0 and prints no card
line, whatever the reply buffers hold. -/
theorem C6_error_propagation (UID_20_BITS : Bool) (w : World (List Reply))
    (data info : Reply)
    (hf : readFailed data.hid_status = true ∨
      (readFailed data.hid_status = false ∧ readFailed info.hid_status = true)) :
    (readOnce UID_20_BITS w data info).returned = 0 ∧
    (readOnce UID_20_BITS w data info).uid = 0 ∧
    (readOnce UID_20_BITS w data info).fac = 0 ∧
    (readOnce UID_20_BITS w data info).printed = [] := by
  rcases hf with hd | ⟨hd, hi⟩
  · rw [readOnce_dataFailed UID_20_BITS w data info hd]
    simp [Outcome.nothing]
  · rw [readOnce_infoFailed UID_20_BITS w data info hd hi]
    simp [Outcome.nothing]

/-- Witness for C6: the data reply shows a card (bytes 0x10,0x20,0x30) and the info read
fails with status 7; the call yields nothing. -/
theorem C6_error_propagation_witness :
    (readFailed scenarioData.hid_status = false ∧
      readFailed (shortReply scenarioData.buffer).hid_status = true) ∧
    ((readOnce true (World.fresh []) scenarioData (shortReply scenarioData.buffer)).returned = 0 ∧
      (readOnce true (World.fresh []) scenarioData (shortReply scenarioData.buffer)).uid = 0 ∧
      (readOnce true (World.fresh []) scenarioData (shortReply scenarioData.buffer)).fac = 0 ∧
      (readOnce true (World.fresh []) scenarioData (shortReply scenarioData.buffer)).printed
        = []) :=
  ⟨⟨by decide, by decide⟩,
   C6_error_propagation true (World.fresh []) scenarioData (shortReply scenarioData.buffer)
     (Or.inr ⟨by decide, by decide⟩)⟩

/-! ## The transmit trace, for an arbitrary device -/

theorem transportCalls_append (l1 l2 : List Event) :
    transportCalls (l1 ++ l2) = transportCalls l1 ++ transportCalls l2 := by
  induction l1 with
  | nil => simp [transportCalls]
  | cons e es ih => cases e <;> simp [transportCalls, ih]

theorem sentReports_append (l1 l2 : List Event) :
    sentReports (l1 ++ l2) = sentReports l1 ++ sentReports l2 := by
  induction l1 with
  | nil => simp [sentReports]
  | cons e es ih => cases e <;> simp [sentReports, ih]

theorem cardPrints_append (l1 l2 : List Event) :
    cardPrints (l1 ++ l2) = cardPrints l1 ++ cardPrints l2 := by
  induction l1 with
  | nil => simp [cardPrints]
  | cons e es ih => cases e <;> simp [cardPrints, ih]

theorem decodeBlock_log {σ : Type} (UID_20_BITS : Bool) (w : World σ) :
    (decodeBlock UID_20_BITS w).log =
      w.log ++ [Event.printTagData (w.card_data.firstN 8),
                Event.printTagInfo (w.card_info.firstN 8),
                Event.printBits (w.card_info 1).val,
                Event.printFacUid (iData (decodeBlock UID_20_BITS w).uFAC)
                  (iData (decodeBlock UID_20_BITS w).uUID)] := by
  cases hb : (UID_20_BITS && decide ((w.card_info 1).val = 32)) <;>
    simp [decodeBlock, hb]

theorem transportCalls_decodeBlock {σ : Type} (UID_20_BITS : Bool) (w : World σ) :
    transportCalls (decodeBlock UID_20_BITS w).log = transportCalls w.log := by
  rw [decodeBlock_log, transportCalls_append]
  simp [transportCalls]

theorem sentReports_decodeBlock {σ : Type} (UID_20_BITS : Bool) (w : World σ) :
    sentReports (decodeBlock UID_20_BITS w).log = sentReports w.log := by
  rw [decodeBlock_log, sentReports_append]
  simp [sentReports]

/-- C5: one call of `PCPROX_READTAGS`, against any device and from any prior content of
the globals (`buf` included), sends exactly the report (0x00,0x8F,0,0,0,0,0,0,0) when
the first read fails the frame test, and exactly that report followed by
(0x00,0x8E,0,0,0,0,0,0,0) when the first read passes it; the two reads of the second
case come after the send they answer. -/
theorem C5_transmit_trace {σ : Type} (h : Hid σ) (UID_20_BITS : Bool)
    (w : World σ) :
    ∃ n1 : Int,
      (readFailed n1 = true ∧
        transportCalls (PCPROX_READTAGS h UID_20_BITS { w with log := [] }).1.log
          = [Event.send [0, 0x8F, 0, 0, 0, 0, 0, 0, 0], Event.get n1] ∧
        sentReports (PCPROX_READTAGS h UID_20_BITS { w with log := [] }).1.log
          = [[0, 0x8F, 0, 0, 0, 0, 0, 0, 0]]) ∨
      (readFailed n1 = false ∧ ∃ n2 : Int,
        transportCalls (PCPROX_READTAGS h UID_20_BITS { w with log := [] }).1.log
          = [Event.send [0, 0x8F, 0, 0, 0, 0, 0, 0, 0], Event.get n1,
             Event.send [0, 0x8E, 0, 0, 0, 0, 0, 0, 0], Event.get n2] ∧
        sentReports (PCPROX_READTAGS h UID_20_BITS { w with log := [] }).1.log
          = [[0, 0x8F, 0, 0, 0, 0, 0, 0, 0], [0, 0x8E, 0, 0, 0, 0, 0, 0, 0]]) := by
  refine ⟨(h.hid_get_feature_report (h.hid_send_feature_report w.dev (commandReport 0x8F)).1
    (w.PCPROX_READBUFFER.write 0 0)).2.1, ?_⟩
  cases h1 : readFailed (h.hid_get_feature_report (h.hid_send_feature_report w.dev
      (commandReport 0x8F)).1 (w.PCPROX_READBUFFER.write 0 0)).2.1
  · right
    refine ⟨rfl, ?_⟩
    refine ⟨(h.hid_get_feature_report
      (h.hid_send_feature_report
        (h.hid_get_feature_report (h.hid_send_feature_report w.dev (commandReport 0x8F)).1
          (w.PCPROX_READBUFFER.write 0 0)).1 (commandReport 0x8E)).1
      ((h.hid_get_feature_report (h.hid_send_feature_report w.dev (commandReport 0x8F)).1
          (w.PCPROX_READBUFFER.write 0 0)).2.2.write 0 0)).2.1, ?_⟩
    simp [PCPROX_READTAGS, interact, PCPROX_Read, PCPROX_Write, firstN_command8F,
      firstN_command8E, h1]
    split_ifs <;>
      simp [transportCalls_decodeBlock, sentReports_decodeBlock, transportCalls, sentReports,
        commandReport]
  · left
    simp [PCPROX_READTAGS, interact, PCPROX_Read, PCPROX_Write, firstN_command8F, h1]
    simp [transportCalls, sentReports, commandReport]

/-! ## The frame test of `PCPROX_Read` -/

theorem readFailed_iff (n : Int) : readFailed n = true ↔ n < 8 := by
  simp only [readFailed, Bool.or_eq_true, decide_eq_true_eq]
  omega

/-- C8 (as stated, refuted): a read that returns status 8, that is the report number
and seven payload bytes (8 - 1 < 8), passes the test of `PCPROX_Read`, which returns
the buffer and not `NULL`. -/
theorem C8_counterexample_status_eight :
    (8 : Int) - 1 < 8 ∧
    (PCPROX_Read scripted (World.fresh [eightByteReply])).2 = Ptr.READBUFFER ∧
    (interact scripted (CArray.ofList [0, 0x8F]) (World.fresh [eightByteReply])).2
      = Ptr.READBUFFER := by
  refine ⟨by decide, ?_, ?_⟩ <;>
    simp [interact, PCPROX_Read, PCPROX_Write, scripted, World.fresh, readFailed,
      eightByteReply]

/-- C8 (amended): for any device and any status `n` of the feature-report read, where
`n` counts the bytes returned including byte 0, `PCPROX_Read` (and so `interact`)
returns `NULL` exactly when `n < 8` (which covers `n = -1`), and the buffer exactly
when `8 ≤ n`, that is when bytes 0..7 were delivered. -/
theorem C8_frame_test {σ : Type} (h : Hid σ) (msg : CArray) (w : World σ) :
    (∀ n : Int, readFailed n = true ↔ n < 8) ∧
    ((PCPROX_Read h w).2 = Ptr.NULL ↔
      (h.hid_get_feature_report w.dev (w.PCPROX_READBUFFER.write 0 0)).2.1 < 8) ∧
    ((PCPROX_Read h w).2 = Ptr.READBUFFER ↔
      8 ≤ (h.hid_get_feature_report w.dev (w.PCPROX_READBUFFER.write 0 0)).2.1) ∧
    ((interact h msg w).2 = Ptr.NULL ↔
      (h.hid_get_feature_report (h.hid_send_feature_report w.dev (msg.firstN 9)).1
        (w.PCPROX_READBUFFER.write 0 0)).2.1 < 8) := by
  refine ⟨readFailed_iff, ?_, ?_, ?_⟩
  · rw [← readFailed_iff]
    cases hr : readFailed (h.hid_get_feature_report w.dev (w.PCPROX_READBUFFER.write 0 0)).2.1 <;>
      simp [PCPROX_Read, hr]
  · rw [← not_lt, ← readFailed_iff]
    cases hr : readFailed (h.hid_get_feature_report w.dev (w.PCPROX_READBUFFER.write 0 0)).2.1 <;>
      simp [PCPROX_Read, hr]
  · rw [← readFailed_iff]
    cases hr : readFailed (h.hid_get_feature_report
        (h.hid_send_feature_report w.dev (msg.firstN 9)).1
        (w.PCPROX_READBUFFER.write 0 0)).2.1 <;>
      simp [interact, PCPROX_Read, PCPROX_Write, hr]

/-! ## The polling loop -/

theorem pollIteration_exit {σ : Type} (h : Hid σ) (ONE_PASS_READ UID_20_BITS : Bool)
    (timeout_wait_seconds time_read_start : Int) (t : Tick) (w : World σ) :
    (pollIteration h ONE_PASS_READ UID_20_BITS timeout_wait_seconds time_read_start t w).2 =
      if toInt (PCPROX_READTAGS h UID_20_BITS w).2 ≠ 0 ∧ ONE_PASS_READ = true then
        some Exit.goodRead
      else if ONE_PASS_READ = true ∧ t.run_time - time_read_start > timeout_wait_seconds then
        some Exit.timedOut
      else if t.kbhit = true then some Exit.keyPressed else none := by
  unfold pollIteration
  cases ONE_PASS_READ <;> cases hk : t.kbhit <;>
    by_cases h1 : toInt (PCPROX_READTAGS h UID_20_BITS w).2 = 0 <;>
    by_cases h2 : timeout_wait_seconds < t.run_time - time_read_start <;>
    simp [h1, h2, hk]

theorem readFailed_neg_one : readFailed (-1) = true := by decide

theorem neverShowsCard_nil : neverShowsCard [] = true := rfl

theorem neverShowsCard_cons (r : Reply) (rest : List Reply) :
    neverShowsCard (r :: rest) = true ↔
      ((r.buffer 1).val + (r.buffer 2).val + (r.buffer 3).val = 0 ∧
        neverShowsCard rest = true) := by
  simp only [neverShowsCard, List.all_cons, Bool.and_eq_true, decide_eq_true_eq]

theorem READTAGS_noCard (UID_20_BITS : Bool) (w : World (List Reply))
    (hn : neverShowsCard w.dev = true) :
    (PCPROX_READTAGS scripted UID_20_BITS w).2 = 0 ∧
    neverShowsCard (PCPROX_READTAGS scripted UID_20_BITS w).1.dev = true ∧
    cardPrints (PCPROX_READTAGS scripted UID_20_BITS w).1.log = cardPrints w.log := by
  obtain ⟨dev, rb, cd, ci, buf, uF, uU, log⟩ := w
  cases dev with
  | nil =>
    simp [PCPROX_READTAGS, interact, PCPROX_Read, PCPROX_Write, scripted, readFailed_neg_one,
      cardPrints_append, cardPrints, neverShowsCard_nil]
  | cons r rest =>
    obtain ⟨hr, hrest⟩ := (neverShowsCard_cons r rest).mp hn
    have hr1 : (r.buffer 1).val = 0 := by omega
    have hr2 : (r.buffer 2).val = 0 := by omega
    have hr3 : (r.buffer 3).val = 0 := by omega
    cases h1 : readFailed r.hid_status
    · cases rest with
      | nil =>
        simp [PCPROX_READTAGS, interact, PCPROX_Read, PCPROX_Write, scripted, readFailed_neg_one,
          cardPrints_append, cardPrints, neverShowsCard_nil, h1]
      | cons r2 rest2 =>
        obtain ⟨_, hrest2⟩ := (neverShowsCard_cons r2 rest2).mp hrest
        cases h2 : readFailed r2.hid_status
        · simp [PCPROX_READTAGS, interact, PCPROX_Read, PCPROX_Write, scripted, h1, h2,
            cardPrints_append, cardPrints, hrest2, copyLoop_lt, hr1, hr2, hr3, iData_zero]
        · simp [PCPROX_READTAGS, interact, PCPROX_Read, PCPROX_Write, scripted, h1, h2,
            cardPrints_append, cardPrints, hrest2]
    · simp [PCPROX_READTAGS, interact, PCPROX_Read, PCPROX_Write, scripted, h1,
        cardPrints_append, cardPrints, hrest]

theorem pollIteration_dev {σ : Type} (h : Hid σ) (ONE_PASS_READ UID_20_BITS : Bool)
    (timeout_wait_seconds time_read_start : Int) (t : Tick) (w : World σ) :
    (pollIteration h ONE_PASS_READ UID_20_BITS timeout_wait_seconds time_read_start t w).1.dev
      = (PCPROX_READTAGS h UID_20_BITS w).1.dev := by
  unfold pollIteration
  cases ONE_PASS_READ <;> cases hk : t.kbhit <;>
    by_cases h1 : toInt (PCPROX_READTAGS h UID_20_BITS w).2 = 0 <;>
    by_cases h2 : timeout_wait_seconds < t.run_time - time_read_start <;>
    simp [h1, h2, hk]

theorem pollIteration_cardPrints {σ : Type} (h : Hid σ) (ONE_PASS_READ UID_20_BITS : Bool)
    (timeout_wait_seconds time_read_start : Int) (t : Tick) (w : World σ) :
    cardPrints
      (pollIteration h ONE_PASS_READ UID_20_BITS timeout_wait_seconds time_read_start t w).1.log
      = cardPrints (PCPROX_READTAGS h UID_20_BITS w).1.log := by
  unfold pollIteration
  cases ONE_PASS_READ <;> cases hk : t.kbhit <;>
    by_cases h1 : toInt (PCPROX_READTAGS h UID_20_BITS w).2 = 0 <;>
    by_cases h2 : timeout_wait_seconds < t.run_time - time_read_start <;>
    simp [h1, h2, hk, cardPrints_append, cardPrints]

theorem toInt_zero : toInt 0 = 0 := by decide

theorem pollIteration_noCard (UID_20_BITS : Bool) (timeout_wait_seconds time_read_start : Int)
    (t : Tick) (w : World (List Reply)) (hn : neverShowsCard w.dev = true) :
    (pollIteration scripted true UID_20_BITS timeout_wait_seconds time_read_start t w).2 =
      (if t.run_time - time_read_start > timeout_wait_seconds then some Exit.timedOut
       else if t.kbhit = true then some Exit.keyPressed else none) ∧
    neverShowsCard
      (pollIteration scripted true UID_20_BITS timeout_wait_seconds time_read_start t w).1.dev
        = true ∧
    cardPrints
      (pollIteration scripted true UID_20_BITS timeout_wait_seconds time_read_start t w).1.log
        = cardPrints w.log := by
  obtain ⟨hret, hdev, hlog⟩ := READTAGS_noCard UID_20_BITS w hn
  refine ⟨?_, ?_, ?_⟩
  · rw [pollIteration_exit, hret]
    simp [toInt_zero]
  · rw [pollIteration_dev]
    exact hdev
  · rw [pollIteration_cardPrints]
    exact hlog

theorem pollLoop_continuous_never_timedOut {σ : Type} (h : Hid σ) (UID_20_BITS : Bool)
    (timeout_wait_seconds time_read_start : Int) (ticks : List Tick) :
    ∀ w : World σ,
      (pollLoop h false UID_20_BITS timeout_wait_seconds time_read_start ticks w).2
        ≠ some Exit.timedOut := by
  induction ticks with
  | nil => intro w; simp [pollLoop]
  | cons t ts ih =>
    intro w
    have hx := pollIteration_exit h false UID_20_BITS timeout_wait_seconds time_read_start t w
    simp only [Bool.false_eq_true, and_false, false_and, if_false] at hx
    unfold pollLoop
    by_cases hk : t.kbhit = true
    · simp [hx, hk]
    · simp [hx, hk]
      exact ih _

theorem pollLoop_continuous_no_key {σ : Type} (h : Hid σ) (UID_20_BITS : Bool)
    (timeout_wait_seconds time_read_start : Int) (ticks : List Tick)
    (hk : noKeyPressed ticks = true) :
    ∀ w : World σ,
      (pollLoop h false UID_20_BITS timeout_wait_seconds time_read_start ticks w).2 = none := by
  induction ticks with
  | nil => intro w; simp [pollLoop]
  | cons t ts ih =>
    intro w
    simp only [noKeyPressed, List.all_cons, Bool.and_eq_true, Bool.not_eq_true'] at hk
    have hx := pollIteration_exit h false UID_20_BITS timeout_wait_seconds time_read_start t w
    simp only [Bool.false_eq_true, and_false, false_and, if_false, hk.1] at hx
    unfold pollLoop
    simp only [hx]
    exact ih hk.2 _

theorem quietWithin_cons (time_read_start limit : Int) (t : Tick) (ts : List Tick) :
    quietWithin time_read_start limit (t :: ts) = true ↔
      (t.run_time - time_read_start ≤ limit ∧ t.kbhit = false ∧
        quietWithin time_read_start limit ts = true) := by
  simp only [quietWithin, List.all_cons, Bool.and_eq_true, decide_eq_true_eq,
    Bool.not_eq_true', and_assoc]

theorem pollLoop_quiet (UID_20_BITS : Bool) (timeout_wait_seconds time_read_start : Int)
    (pre rest : List Tick) :
    ∀ w : World (List Reply), neverShowsCard w.dev = true →
      quietWithin time_read_start timeout_wait_seconds pre = true →
      ∃ w1 : World (List Reply),
        neverShowsCard w1.dev = true ∧ cardPrints w1.log = cardPrints w.log ∧
        pollLoop scripted true UID_20_BITS timeout_wait_seconds time_read_start (pre ++ rest) w
          = pollLoop scripted true UID_20_BITS timeout_wait_seconds time_read_start rest w1 := by
  induction pre with
  | nil => intro w hn _; exact ⟨w, hn, rfl, rfl⟩
  | cons t ts ih =>
    intro w hn hq
    obtain ⟨ht, hk, hts⟩ := (quietWithin_cons _ _ _ _).mp hq
    obtain ⟨hexit, hdev, hlog⟩ :=
      pollIteration_noCard UID_20_BITS timeout_wait_seconds time_read_start t w hn
    have hnone : (pollIteration scripted true UID_20_BITS timeout_wait_seconds
        time_read_start t w).2 = none := by
      rw [hexit]
      have hnot : ¬ t.run_time - time_read_start > timeout_wait_seconds := by omega
      simp [hnot, hk]
    obtain ⟨w1, hn1, hl1, hloop⟩ := ih _ hdev hts
    refine ⟨w1, hn1, hl1.trans hlog, ?_⟩
    rw [← hloop]
    simp [pollLoop, hnone]

/-- C9: a round of the polling loop that is not left by the good-read `break` is left
by the timeout `break` exactly when `ONE_PASS_READ` is set and
`run_time - time_read_start` is strictly greater than `timeout_wait_seconds`; with
`ONE_PASS_READ` false neither a round nor the whole loop is ever left by the timeout,
and while no key is pressed the loop keeps running whatever the clock reads.
Scenario D: with `ONE_PASS_READ` set, against a device that never shows a card and
with no key pressed, the loop is still running after any rounds whose elapsed time is
at most the timeout, is left by the timeout in the first round whose elapsed time
exceeds it, and no card line has been printed. -/
theorem C9_timeout_decision {σ : Type} (h : Hid σ) (ONE_PASS_READ UID_20_BITS : Bool)
    (timeout_wait_seconds time_read_start : Int) (t : Tick) (w : World σ)
    (ticks : List Tick) (s : List Reply) (g : World (List Reply)) (pre post : List Tick)
    (late : Tick) :
    ((pollIteration h ONE_PASS_READ UID_20_BITS timeout_wait_seconds time_read_start t w).2
        ≠ some Exit.goodRead →
      ((pollIteration h ONE_PASS_READ UID_20_BITS timeout_wait_seconds time_read_start t w).2
          = some Exit.timedOut ↔
        (ONE_PASS_READ = true ∧ t.run_time - time_read_start > timeout_wait_seconds))) ∧
    (pollIteration h false UID_20_BITS timeout_wait_seconds time_read_start t w).2
      ≠ some Exit.timedOut ∧
    (pollLoop h false UID_20_BITS timeout_wait_seconds time_read_start ticks w).2
      ≠ some Exit.timedOut ∧
    (noKeyPressed ticks = true →
      (pollLoop h false UID_20_BITS timeout_wait_seconds time_read_start ticks w).2 = none) ∧
    (neverShowsCard s = true →
      quietWithin time_read_start timeout_wait_seconds pre = true →
      late.run_time - time_read_start > timeout_wait_seconds →
      (pollLoop scripted true UID_20_BITS timeout_wait_seconds time_read_start pre
          { g with dev := s, log := [] }).2 = none ∧
      (pollLoop scripted true UID_20_BITS timeout_wait_seconds time_read_start
          (pre ++ late :: post) { g with dev := s, log := [] }).2 = some Exit.timedOut ∧
      cardPrints (pollLoop scripted true UID_20_BITS timeout_wait_seconds time_read_start
          (pre ++ late :: post) { g with dev := s, log := [] }).1.log = []) := by
  refine ⟨?_, ?_, pollLoop_continuous_never_timedOut h UID_20_BITS _ _ ticks w,
    fun hk => pollLoop_continuous_no_key h UID_20_BITS _ _ ticks hk w, ?_⟩
  · rw [pollIteration_exit]
    intro hne
    by_cases h1 : toInt (PCPROX_READTAGS h UID_20_BITS w).2 ≠ 0 ∧ ONE_PASS_READ = true
    · simp [h1] at hne
    · by_cases h2 : ONE_PASS_READ = true ∧
          t.run_time - time_read_start > timeout_wait_seconds
      · rw [if_neg h1, if_pos h2]
        exact ⟨fun _ => h2, fun _ => rfl⟩
      · rw [if_neg h1, if_neg h2]
        constructor
        · intro hx
          split at hx <;> simp at hx
        · intro hx
          exact absurd hx h2
  · rw [pollIteration_exit]
    by_cases hk : t.kbhit = true <;> simp [hk]
  · intro hn hq hlate
    obtain ⟨w1, hn1, hl1, hloop1⟩ := pollLoop_quiet UID_20_BITS timeout_wait_seconds
      time_read_start pre [] { g with dev := s, log := [] } hn hq
    obtain ⟨w2, hn2, hl2, hloop2⟩ := pollLoop_quiet UID_20_BITS timeout_wait_seconds
      time_read_start pre (late :: post) { g with dev := s, log := [] } hn hq
    obtain ⟨hexit, _, hlog⟩ :=
      pollIteration_noCard UID_20_BITS timeout_wait_seconds time_read_start late w2 hn2
    rw [if_pos hlate] at hexit
    refine ⟨?_, ?_, ?_⟩
    · rw [List.append_nil] at hloop1
      rw [hloop1]
      rfl
    · rw [hloop2]
      simp [pollLoop, hexit]
    · rw [hloop2]
      simp only [pollLoop, hexit]
      rw [hlog, hl2]
      rfl

/-- Scenario D for C9, with `timeout_wait_seconds = 3` and a start at 100: the rounds
at 100..103 leave the loop running, the round at 104 leaves it by the timeout, and no
card line is printed. -/
theorem C9_timeout_decision_witness :
    (neverShowsCard scenarioNoCardDevice = true ∧
      quietWithin 100 3 scenarioTicksWithin = true ∧ ((104 : Int) - 100 > 3)) ∧
    ((pollLoop scripted true false 3 100 scenarioTicksWithin
        { World.fresh ([] : List Reply) with dev := scenarioNoCardDevice, log := [] }).2 = none ∧
      (pollLoop scripted true false 3 100 (scenarioTicksWithin ++ ⟨104, false⟩ :: [])
        { World.fresh ([] : List Reply) with dev := scenarioNoCardDevice, log := [] }).2
          = some Exit.timedOut ∧
      cardPrints (pollLoop scripted true false 3 100 (scenarioTicksWithin ++ ⟨104, false⟩ :: [])
        { World.fresh ([] : List Reply) with dev := scenarioNoCardDevice, log := [] }).1.log
          = []) :=
  ⟨⟨by decide, by decide, by decide⟩,
   (C9_timeout_decision scripted true false 3 100 ⟨100, false⟩ (World.fresh [])
      [] scenarioNoCardDevice (World.fresh []) scenarioTicksWithin [] ⟨104, false⟩).2.2.2.2
      (by decide) (by decide) (by decide)⟩

theorem pollIteration_goodRead_iff {σ : Type} (h : Hid σ) (ONE_PASS_READ UID_20_BITS : Bool)
    (timeout_wait_seconds time_read_start : Int) (t : Tick) (w : World σ) :
    (pollIteration h ONE_PASS_READ UID_20_BITS timeout_wait_seconds time_read_start t w).2
        = some Exit.goodRead ↔
      (toInt (PCPROX_READTAGS h UID_20_BITS w).2 ≠ 0 ∧ ONE_PASS_READ = true) := by
  rw [pollIteration_exit]
  by_cases h1 : toInt (PCPROX_READTAGS h UID_20_BITS w).2 ≠ 0 ∧ ONE_PASS_READ = true
  · simp [h1]
  · rw [if_neg h1]
    constructor
    · intro hx
      split at hx
      · simp at hx
      · split at hx <;> simp at hx
    · intro hx
      exact absurd hx h1

/-- C7 (the code at a failing input): with `ONE_PASS_READ` set and `UID_20_BITS` false,
a card with data bytes 1..3 = 0,0,5 is present and is decoded and printed (FAC=5 UID=0),
yet `PCPROX_READTAGS` returns 0 and the round does not leave the loop: it goes on to
read the time, sleep 500 ms and test the keyboard. -/
theorem C7_zero_uid_card_keeps_polling :
    0 < (lowZeroData.buffer 1).val + (lowZeroData.buffer 2).val
      + (lowZeroData.buffer 3).val ∧
    (readOnce false (World.fresh []) lowZeroData (scenarioInfo 26)).printed =
      [Event.printTagData [0, 0, 0, 5, 0, 0, 0, 0], Event.printTagInfo [0, 26, 0, 0, 0, 0, 0, 0],
       Event.printBits 26, Event.printFacUid 5 0] ∧
    (readOnce false (World.fresh []) lowZeroData (scenarioInfo 26)).returned = 0 ∧
    (pollIteration scripted true false 3 100 ⟨100, false⟩
      (World.fresh [lowZeroData, scenarioInfo 26])).2 = none ∧
    (pollIteration scripted true false 3 100 ⟨100, false⟩
      (World.fresh [lowZeroData, scenarioInfo 26])).1.log =
      [Event.send [0, 0x8F, 0, 0, 0, 0, 0, 0, 0], Event.usleep 1000, Event.get 9,
       Event.send [0, 0x8E, 0, 0, 0, 0, 0, 0, 0], Event.usleep 1000, Event.get 9,
       Event.printTagData [0, 0, 0, 5, 0, 0, 0, 0], Event.printTagInfo [0, 26, 0, 0, 0, 0, 0, 0],
       Event.printBits 26, Event.printFacUid 5 0,
       Event.time 100, Event.usleep 500000, Event.kbhit false] := by
  decide

/-! ## Independence of the globals left by earlier calls -/

theorem readOnce_globals_irrelevant (UID_20_BITS : Bool) (w1 w2 : World (List Reply))
    (data info : Reply) :
    readOnce UID_20_BITS w1 data info = readOnce UID_20_BITS w2 data info := by
  cases hd : readFailed data.hid_status
  · cases hi : readFailed info.hid_status
    · by_cases hs : 0 < (data.buffer 1).val + (data.buffer 2).val + (data.buffer 3).val
      · rw [readOnce_present UID_20_BITS w1 data info hd hi hs,
          readOnce_present UID_20_BITS w2 data info hd hi hs]
      · rw [readOnce_absent UID_20_BITS w1 data info hd hi (by omega),
          readOnce_absent UID_20_BITS w2 data info hd hi (by omega)]
    · rw [readOnce_infoFailed UID_20_BITS w1 data info hd hi,
        readOnce_infoFailed UID_20_BITS w2 data info hd hi]
  · rw [readOnce_dataFailed UID_20_BITS w1 data info hd,
      readOnce_dataFailed UID_20_BITS w2 data info hd]

/-- C10: the outcome of one `PCPROX_READTAGS` call (value returned, `uUID.iData`,
`uFAC.iData`, card lines printed) is the same from any two contents of the globals
(`card_data`, `card_info`, `buf`, `PCPROX_READBUFFER`, `uUID`, `uFAC`), given the same
two replies and the same flag; three consecutive calls answered by the same replies
give three equal outcomes; and a call that meets a failed exchange or no card returns
0 and leaves `uUID.iData` and `uFAC.iData` at 0 whatever an earlier call left in
them. -/
theorem C10_stateless_iteration (UID_20_BITS : Bool) (w1 w2 : World (List Reply))
    (data info : Reply) :
    readOnce UID_20_BITS w1 data info = readOnce UID_20_BITS w2 data info ∧
    (readOnce UID_20_BITS (worldAfter UID_20_BITS w1 data info) data info
        = readOnce UID_20_BITS w1 data info ∧
      readOnce UID_20_BITS
          (worldAfter UID_20_BITS (worldAfter UID_20_BITS w1 data info) data info) data info
        = readOnce UID_20_BITS w1 data info) ∧
    ((readFailed data.hid_status = true ∨ readFailed info.hid_status = true ∨
        (data.buffer 1).val + (data.buffer 2).val + (data.buffer 3).val = 0) →
      (readOnce UID_20_BITS w1 data info).returned = 0 ∧
      (readOnce UID_20_BITS w1 data info).uid = 0 ∧
      (readOnce UID_20_BITS w1 data info).fac = 0) := by
  refine ⟨readOnce_globals_irrelevant _ _ _ _ _,
    ⟨readOnce_globals_irrelevant _ _ _ _ _, readOnce_globals_irrelevant _ _ _ _ _⟩, ?_⟩
  intro hcase
  cases hd : readFailed data.hid_status
  · cases hi : readFailed info.hid_status
    · have hs : (data.buffer 1).val + (data.buffer 2).val + (data.buffer 3).val = 0 := by
        rcases hcase with hc | hc | hc
        · rw [hd] at hc; exact absurd hc (by decide)
        · rw [hi] at hc; exact absurd hc (by decide)
        · exact hc
      rw [readOnce_absent UID_20_BITS w1 data info hd hi hs]
      simp [Outcome.nothing]
    · rw [readOnce_infoFailed UID_20_BITS w1 data info hd hi]
      simp [Outcome.nothing]
  · rw [readOnce_dataFailed UID_20_BITS w1 data info hd]
    simp [Outcome.nothing]

/-- Witness for C10: after a call that decoded the card of Scenario A (UID 0x2010 left
in `uUID`), a call that sees no card returns 0 and leaves UID and FAC at 0. -/
theorem C10_stateless_iteration_witness :
    (iData (worldAfter false (World.fresh []) scenarioData (scenarioInfo 16)).uUID = 0x2010 ∧
      (zeroData.buffer 1).val + (zeroData.buffer 2).val + (zeroData.buffer 3).val = 0) ∧
    ((readOnce false (worldAfter false (World.fresh []) scenarioData (scenarioInfo 16))
        zeroData (scenarioInfo 16)).returned = 0 ∧
      (readOnce false (worldAfter false (World.fresh []) scenarioData (scenarioInfo 16))
        zeroData (scenarioInfo 16)).uid = 0 ∧
      (readOnce false (worldAfter false (World.fresh []) scenarioData (scenarioInfo 16))
        zeroData (scenarioInfo 16)).fac = 0) :=
  ⟨⟨by decide, by decide⟩,
   (C10_stateless_iteration false
      (worldAfter false (World.fresh []) scenarioData (scenarioInfo 16))
      (World.fresh []) zeroData (scenarioInfo 16)).2.2 (Or.inr (Or.inr (by decide)))⟩

/-- Whatever the device, a call has the outcome of a call against the scripted device
that gives the same two replies. -/
theorem READTAGS_any_device {σ : Type} (h : Hid σ) (UID_20_BITS : Bool) (w : World σ) :
    ∃ data info : Reply,
      outcome (PCPROX_READTAGS h UID_20_BITS { w with log := [] })
        = readOnce UID_20_BITS (World.fresh []) data info := by
  refine ⟨⟨(h.hid_get_feature_report (h.hid_send_feature_report w.dev (commandReport 0x8F)).1
      (w.PCPROX_READBUFFER.write 0 0)).2.1,
    (h.hid_get_feature_report (h.hid_send_feature_report w.dev (commandReport 0x8F)).1
      (w.PCPROX_READBUFFER.write 0 0)).2.2⟩,
    ⟨(h.hid_get_feature_report
      (h.hid_send_feature_report
        (h.hid_get_feature_report (h.hid_send_feature_report w.dev (commandReport 0x8F)).1
          (w.PCPROX_READBUFFER.write 0 0)).1 (commandReport 0x8E)).1
      ((h.hid_get_feature_report (h.hid_send_feature_report w.dev (commandReport 0x8F)).1
          (w.PCPROX_READBUFFER.write 0 0)).2.2.write 0 0)).2.1,
     (h.hid_get_feature_report
      (h.hid_send_feature_report
        (h.hid_get_feature_report (h.hid_send_feature_report w.dev (commandReport 0x8F)).1
          (w.PCPROX_READBUFFER.write 0 0)).1 (commandReport 0x8E)).1
      ((h.hid_get_feature_report (h.hid_send_feature_report w.dev (commandReport 0x8F)).1
          (w.PCPROX_READBUFFER.write 0 0)).2.2.write 0 0)).2.2⟩, ?_⟩
  cases h1 : readFailed (h.hid_get_feature_report (h.hid_send_feature_report w.dev
      (commandReport 0x8F)).1 (w.PCPROX_READBUFFER.write 0 0)).2.1
  · cases h2 : readFailed (h.hid_get_feature_report
      (h.hid_send_feature_report
        (h.hid_get_feature_report (h.hid_send_feature_report w.dev (commandReport 0x8F)).1
          (w.PCPROX_READBUFFER.write 0 0)).1 (commandReport 0x8E)).1
      ((h.hid_get_feature_report (h.hid_send_feature_report w.dev (commandReport 0x8F)).1
          (w.PCPROX_READBUFFER.write 0 0)).2.2.write 0 0)).2.1
    · by_cases hs : 0 < ((h.hid_get_feature_report (h.hid_send_feature_report w.dev
          (commandReport 0x8F)).1 (w.PCPROX_READBUFFER.write 0 0)).2.2 1).val
          + ((h.hid_get_feature_report (h.hid_send_feature_report w.dev
          (commandReport 0x8F)).1 (w.PCPROX_READBUFFER.write 0 0)).2.2 2).val
          + ((h.hid_get_feature_report (h.hid_send_feature_report w.dev
          (commandReport 0x8F)).1 (w.PCPROX_READBUFFER.write 0 0)).2.2 3).val
      · cases hb : (UID_20_BITS && decide (((h.hid_get_feature_report
            (h.hid_send_feature_report
              (h.hid_get_feature_report (h.hid_send_feature_report w.dev (commandReport 0x8F)).1
                (w.PCPROX_READBUFFER.write 0 0)).1 (commandReport 0x8E)).1
            ((h.hid_get_feature_report (h.hid_send_feature_report w.dev (commandReport 0x8F)).1
              (w.PCPROX_READBUFFER.write 0 0)).2.2.write 0 0)).2.2 1).val = 32)) <;>
          simp [readOnce, outcome, PCPROX_READTAGS, interact, PCPROX_Read, PCPROX_Write,
            scripted, firstN_command8F, firstN_command8E, h1, h2, hs, copyLoop_lt,
            firstN_copyLoop, decodeBlock, cardPrints, hb, World.fresh]
      · simp [readOnce, outcome, PCPROX_READTAGS, interact, PCPROX_Read, PCPROX_Write,
          scripted, firstN_command8F, firstN_command8E, h1, h2, hs, copyLoop_lt,
          cardPrints, World.fresh]
    · simp [readOnce, outcome, PCPROX_READTAGS, interact, PCPROX_Read, PCPROX_Write,
        scripted, firstN_command8F, firstN_command8E, h1, h2, cardPrints, World.fresh]
  · simp [readOnce, outcome, PCPROX_READTAGS, interact, PCPROX_Read, PCPROX_Write,
      scripted, firstN_command8F, h1, cardPrints, World.fresh]

end Lectorhid
